import Mathlib

/-!
# Verification of the MERN-challenge reporting API core

Shallow embedding of `server.js` (the query-and-aggregation engine over
product-sale transactions) together with proofs of the specified
properties.  The MongoDB store is modelled as an in-memory list of
transactions queried with executable predicates, mirroring the filter
documents built by the source; JavaScript `Date` values are modelled as
calendar points (year, month, day, time-of-day) plus an explicit
`Invalid Date` state, and JavaScript numbers as rationals.
-/

/-- A calendar instant: year, 1-based month, day, and time-of-day
(as a rational fraction of a day).  Ordered lexicographically, which
agrees with the timestamp order of valid JS dates. -/
structure DateT where
  year : Int
  month : Int
  day : Int
  time : ℚ
deriving DecidableEq, Repr

/-- Strict lexicographic order on calendar instants. -/
def DateT.ltB (a b : DateT) : Bool :=
  decide (a.year < b.year) ||
    (a.year == b.year &&
      (decide (a.month < b.month) ||
        (a.month == b.month &&
          (decide (a.day < b.day) || (a.day == b.day && decide (a.time < b.time))))))

/-- Non-strict order on calendar instants. -/
def DateT.leB (a b : DateT) : Bool := a.ltB b || a == b

/-- A JavaScript `Date` value: either a valid instant or `Invalid Date`
(the result of parsing an unparsable string).  Any comparison against
`Invalid Date` is false, mirroring NaN-timestamp comparisons. -/
inductive JSDate where
  | valid : DateT → JSDate
  | invalid : JSDate
deriving DecidableEq, Repr

/-- Numeric value of a list of decimal digit characters. -/
def digitsToNat (l : List Char) : Nat :=
  l.foldl (fun a c => 10 * a + (c.toNat - 48)) 0

/-- Splits a character list of the exact shape `YYYY-MM-DD` into its
numeric year, month and day fields; any other shape is rejected. -/
def parseISO (l : List Char) : Option (Int × Int × Int) :=
  match l with
  | [y1, y2, y3, y4, '-', m1, m2, '-', d1, d2] =>
    if [y1, y2, y3, y4, m1, m2, d1, d2].all Char.isDigit then
      some ((digitsToNat [y1, y2, y3, y4] : Int),
            (digitsToNat [m1, m2] : Int),
            (digitsToNat [d1, d2] : Int))
    else none
  | _ => none

/-- Models `new Date(s)` for the ISO `YYYY-MM-DD` date-only strings the
source constructs (`` `${month}-01` ``): a well-formed string yields UTC
midnight of that calendar day, anything else yields `Invalid Date`. -/
def jsParseDate (s : String) : JSDate :=
  match parseISO s.data with
  | some (y, m, d) =>
    if 1 ≤ m ∧ m ≤ 12 ∧ 1 ≤ d ∧ d ≤ 31 then JSDate.valid ⟨y, m, d, 0⟩
    else JSDate.invalid
  | none => JSDate.invalid

/-- Models `d.setMonth(d.getMonth() + 1)`: advancing the (1-based) month
by one, rolling December over into January of the next year; the day and
time-of-day are kept (all uses in the source have day 1, so no JS
day-overflow normalisation can occur).  `Invalid Date` stays invalid. -/
def jsSetMonthPlusOne : JSDate → JSDate
  | JSDate.invalid => JSDate.invalid
  | JSDate.valid d =>
    if d.month + 1 > 12 then JSDate.valid ⟨d.year + 1, d.month + 1 - 12, d.day, d.time⟩
    else JSDate.valid ⟨d.year, d.month + 1, d.day, d.time⟩

/-- The month-window resolver used by every endpoint (`server.js` lines
54-56, 88-90, 121-123, 156-158): `startDate = new Date(month + "-01")`,
`endDate` = the same date with the month advanced by one. -/
def resolveWindow (month : String) : JSDate × JSDate :=
  let startDate := jsParseDate (month ++ "-01")
  (startDate, jsSetMonthPlusOne startDate)

/-- Spec-side description of the window's upper end: the first instant of
the month following month `m` of year `y`, with December rolling over to
January of the next year. -/
def firstOfNextMonth (y m : Int) : DateT :=
  if m = 12 then ⟨y + 1, 1, 1, 0⟩ else ⟨y, m + 1, 1, 0⟩

/-- The `dateOfSale: { $gte: startDate, $lt: endDate }` test: the record
date lies in the half-open window.  A window end (or start) that is
`Invalid Date` matches nothing. -/
def inWindowB (w : JSDate × JSDate) (d : DateT) : Bool :=
  (match w.1 with
   | JSDate.valid a => a.leB d
   | JSDate.invalid => false) &&
  (match w.2 with
   | JSDate.valid b => d.ltB b
   | JSDate.invalid => false)

/-- A transaction record, per the `productTransactionSchema` of the
source (lines 23-31); `price` is a rational standing for a JS number. -/
structure Transaction where
  id : Int
  title : String
  description : String
  price : ℚ
  dateOfSale : DateT
  category : String
  sold : Bool
deriving DecidableEq, Repr

/-- `countDocuments(q)` over the modelled store: the number of records
satisfying the query predicate. -/
def countDocs (store : List Transaction) (q : Transaction → Bool) : Nat :=
  store.countP q

/-- Case-insensitive character-list prefix test. -/
def startsWithC : List Char → List Char → Bool
  | [], _ => true
  | _ :: _, [] => false
  | a :: p, b :: s => a == b && startsWithC p s

/-- Substring (contiguous-infix) test on character lists. -/
def hasSubstrC (p : List Char) : List Char → Bool
  | [] => p.isEmpty
  | c :: t => startsWithC p (c :: t) || hasSubstrC p t

/-- Lower-cased character content of a string. -/
def toLowerList (s : String) : List Char := s.data.map Char.toLower

/-- Models `new RegExp(pat, 'i').test(s)` for patterns free of regex
metacharacters (every search the spec discusses): a case-insensitive
substring test; the empty pattern matches every string. -/
def regexMatchI (pat s : String) : Bool :=
  hasSubstrC (toLowerList pat) (toLowerList s)

/-- Whether the character list carries a leading minus sign. -/
def hasMinus (l : List Char) : Bool :=
  match l with
  | '-' :: _ => true
  | _ => false

/-- The characters remaining after an optional leading sign. -/
def afterSign (l : List Char) : List Char :=
  match l with
  | '-' :: t => t
  | '+' :: t => t
  | _ => l

/-- Value of a digit run read as a decimal integer. -/
def decimalValI (l : List Char) : Int :=
  l.foldl (fun a c => 10 * a + ((c.toNat - 48 : Nat) : Int)) 0

/-- Models JS `parseFloat`: skip whitespace, optional sign, then the
longest prefix `digits [. digits]`; trailing garbage is ignored and
`none` stands for `NaN` (no digit consumed).  The value of the consumed
literal `±ip.fp` is `±(digits of ip ++ fp) / 10 ^ |fp|`; when there is
no fractional part this is the integer itself, cast to ℚ.  Exponent
suffixes and `Infinity`, which no claim exercises, are not modelled. -/
def parseFloatQ (s : String) : Option ℚ :=
  let l := s.data.dropWhile Char.isWhitespace
  let neg := hasMinus l
  let l1 := afterSign l
  let ip := l1.takeWhile Char.isDigit
  let rest := l1.dropWhile Char.isDigit
  let fp :=
    match rest with
    | '.' :: t => t.takeWhile Char.isDigit
    | _ => []
  if ip.isEmpty && fp.isEmpty then none
  else
    let mag : Int := decimalValI (ip ++ fp)
    let n : Int := if neg then -mag else mag
    if fp.isEmpty then some (n : ℚ)
    else some ((n : ℚ) / ((10 : ℚ) ^ fp.length))

/-- The value the source compares `price` against:
`parseFloat(search) || -1` (line 64).  JS `||` replaces every falsy
left operand — `NaN` and `0` alike — with the sentinel `-1`. -/
def priceSearchValue (search : String) : ℚ :=
  match parseFloatQ search with
  | none => -1
  | some q => if q = 0 then -1 else q

/-- The `/api/transactions` filter document (lines 59-65): date in
window AND (title matches OR description matches OR price equals
`parseFloat(search) || -1`). -/
def txMatches (w : JSDate × JSDate) (search : String) (t : Transaction) : Bool :=
  inWindowB w t.dateOfSale &&
    (regexMatchI search t.title || regexMatchI search t.description ||
      decide (t.price = priceSearchValue search))

/-- The predicate as the spec words it (§4.2): date in window AND
(search empty OR title matches OR description matches OR price equals
the search parsed as a number, the price branch never matching when the
search does not parse). -/
def specPredicate (w : JSDate × JSDate) (search : String) (t : Transaction) : Bool :=
  inWindowB w t.dateOfSale &&
    (decide (search = "") || regexMatchI search t.title || regexMatchI search t.description ||
      (match parseFloatQ search with
       | none => false
       | some q => decide (t.price = q)))

/-- The slice offset `(page - 1) * perPage` fed to `.skip(...)`
(line 67). -/
def skipAmount (page perPage : Int) : Int := (page - 1) * perPage

/-- A `/api/transactions` response body: the sliced records plus the
unsliced total match count. -/
structure TxPage where
  transactions : List Transaction
  total : Nat
deriving DecidableEq, Repr

/-- MongoDB cursor `skip`/`limit` semantics on the matched records: a
negative skip is rejected by the store, `limit(0)` imposes no limit, and
a negative limit acts as its absolute value. -/
def mongoSkipLimit (l : List Transaction) (skip limit : Int) :
    Except String (List Transaction) :=
  if skip < 0 then Except.error "skip must be non-negative"
  else
    Except.ok (if limit = 0 then l.drop skip.toNat
               else (l.drop skip.toNat).take limit.natAbs)

/-- The records matching a `/api/transactions` request, in store order
(the stable order of the modelled collection). -/
def matchesOf (store : List Transaction) (month search : String) : List Transaction :=
  store.filter (fun t => txMatches (resolveWindow month) search t)

/-- The `/api/transactions` endpoint (lines 50-83): filter by window and
search, slice by `skip((page-1)*perPage).limit(perPage)`, and report the
unsliced total from `countDocuments` over the same filter. -/
def listTransactions (store : List Transaction) (month search : String)
    (page perPage : Int) : Except String TxPage :=
  match mongoSkipLimit (matchesOf store month search) (skipAmount page perPage) perPage with
  | Except.error e => Except.error e
  | Except.ok txs => Except.ok ⟨txs, (matchesOf store month search).length⟩

/-- The transactions carried by a `/api/transactions` result (empty on
error). -/
def txsOf (e : Except String TxPage) : List Transaction :=
  match e with
  | Except.ok p => p.transactions
  | Except.error _ => []

/-- A `/api/statistics` response body. -/
structure Stats where
  totalSaleAmount : ℚ
  totalSoldItems : Nat
  totalNotSoldItems : Nat
deriving DecidableEq, Repr

/-- The `$match sold:true / $group $sum: "$price"` aggregation
(lines 93-96): `none` when no record matches (the pipeline yields an
empty array), otherwise the sum of the matching prices. -/
def aggSumSold (store : List Transaction) (w : JSDate × JSDate) : Option ℚ :=
  let l := store.filter (fun t => inWindowB w t.dateOfSale && t.sold)
  if l.isEmpty then none else some ((l.map (fun t => t.price)).sum)

/-- JS `x || 0` on the optional aggregate total (line 109): `undefined`
(no group) and `0` are falsy and both collapse to `0`. -/
def jsOr0 (x : Option ℚ) : ℚ :=
  match x with
  | none => 0
  | some t => if t = 0 then 0 else t

/-- The `/api/statistics` endpoint (lines 85-116). -/
def getStatistics (store : List Transaction) (month : String) : Stats :=
  let w := resolveWindow month
  { totalSaleAmount := jsOr0 (aggSumSold store w)
    totalSoldItems := countDocs store (fun t => inWindowB w t.dateOfSale && t.sold)
    totalNotSoldItems := countDocs store (fun t => inWindowB w t.dateOfSale && !t.sold) }

/-- Modelled from the spec (§4.3): the three statistics computed by one
linear scan of the store, against which the endpoint is compared. -/
def scanStats (w : JSDate × JSDate) : List Transaction → Stats
  | [] => ⟨0, 0, 0⟩
  | t :: rest =>
    let s := scanStats w rest
    if inWindowB w t.dateOfSale then
      if t.sold then ⟨s.totalSaleAmount + t.price, s.totalSoldItems + 1, s.totalNotSoldItems⟩
      else ⟨s.totalSaleAmount, s.totalSoldItems, s.totalNotSoldItems + 1⟩
    else s

/-- A histogram bucket of the `/api/bar-chart` endpoint: label, lower
bound `min`, upper bound `max` (`none` models `Infinity`). -/
structure PriceRange where
  label : String
  min : ℚ
  max : Option ℚ
deriving DecidableEq, Repr

def range0 : PriceRange := ⟨"0-100", 0, some 100⟩
def range1 : PriceRange := ⟨"101-200", 101, some 200⟩
def range2 : PriceRange := ⟨"201-300", 201, some 300⟩
def range3 : PriceRange := ⟨"301-400", 301, some 400⟩
def range4 : PriceRange := ⟨"401-500", 401, some 500⟩
def range5 : PriceRange := ⟨"501-600", 501, some 600⟩
def range6 : PriceRange := ⟨"601-700", 601, some 700⟩
def range7 : PriceRange := ⟨"701-800", 701, some 800⟩
def range8 : PriceRange := ⟨"801-900", 801, some 900⟩
def range9 : PriceRange := ⟨"901-above", 901, none⟩

/-- The fixed bucket table of lines 125-136. -/
def priceRanges : List PriceRange :=
  [range0, range1, range2, range3, range4, range5, range6, range7, range8, range9]

/-- The `price: { $gte: min, $lt: max }` test of a single bucket;
`max = none` (Infinity) imposes no upper bound. -/
def priceIn (r : PriceRange) (p : ℚ) : Bool :=
  decide (r.min ≤ p) &&
    (match r.max with
     | some hi => decide (p < hi)
     | none => true)

/-- The `/api/bar-chart` endpoint (lines 118-151): one
`countDocuments` per bucket, collected in declared bucket order. -/
def barChart (store : List Transaction) (month : String) : List (String × Nat) :=
  let w := resolveWindow month
  priceRanges.map (fun r =>
    (r.label, countDocs store (fun t => inWindowB w t.dateOfSale && priceIn r t.price)))

/-- The boundary intervals the bucket table skips: each `[100k, 100k+1)`
between a bucket's exclusive upper bound and the next bucket's lower
bound. -/
def gapBounds : List (ℚ × ℚ) :=
  [(100, 101), (200, 201), (300, 301), (400, 401), (500, 501),
   (600, 601), (700, 701), (800, 801), (900, 901)]

/-- Price lies in one of the uncovered boundary gaps. -/
def inGap (p : ℚ) : Bool :=
  gapBounds.any (fun g => decide (g.1 ≤ p) && decide (p < g.2))

/-- The `/api/pie-chart` endpoint (lines 153-171): group the in-window
records by category and count each group; only categories present in
the window produce an entry. -/
def pieChart (store : List Transaction) (month : String) : List (String × Nat) :=
  let w := resolveWindow month
  let inWin := store.filter (fun t => inWindowB w t.dateOfSale)
  ((inWin.map (fun t => t.category)).dedup).map
    (fun c => (c, inWin.countP (fun t => t.category == c)))

/-- The `/api/combined-data` response body. -/
structure CombinedPayload where
  transactions : TxPage
  statistics : Stats
  barChart : List (String × Nat)
  pieChart : List (String × Nat)
deriving DecidableEq, Repr

/-- The fan-in of `/api/combined-data` (lines 176-187): the four
sub-results are awaited inside one `try`, so the payload is assembled
only when every one of them succeeded and any sub-failure fails the
whole call. -/
def combineResponses (t : Except String TxPage) (s : Except String Stats)
    (b : Except String (List (String × Nat))) (p : Except String (List (String × Nat))) :
    Except String CombinedPayload := do
  let td ← t
  let sd ← s
  let bd ← b
  let pd ← p
  pure ⟨td, sd, bd, pd⟩

/-- Whether an `Except` result is a success. -/
def isOkE {ε α : Type} : Except ε α → Bool
  | Except.ok _ => true
  | Except.error _ => false

/-- The `/api/combined-data` endpoint (lines 173-191): the four
sub-endpoints invoked with only the month parameter, so
`/api/transactions` runs with its defaults `search = ''`, `page = 1`,
`perPage = 10`.  In this pure model only the transactions sub-call
carries a failure mode; the other three are total. -/
def combinedData (store : List Transaction) (month : String) :
    Except String CombinedPayload :=
  combineResponses (listTransactions store month "" 1 10)
    (Except.ok (getStatistics store month))
    (Except.ok (barChart store month))
    (Except.ok (pieChart store month))

/-- Number of pages needed for `a` records at `b` per page: `⌈a / b⌉`. -/
def ceilDiv (a b : Nat) : Nat := (a + b - 1) / b

/-- Sample records used as concrete witnesses. -/
def d1 : Transaction := ⟨1, "t one", "desc one", 10, ⟨2022, 3, 2, 0⟩, "catA", true⟩
def d2 : Transaction := ⟨2, "t two", "desc two", 20, ⟨2022, 3, 3, 0⟩, "catA", false⟩
def d3 : Transaction := ⟨3, "t three", "desc three", 200, ⟨2022, 3, 4, 0⟩, "catB", true⟩

/-- A small concrete store. -/
def demoStore : List Transaction := [d1, d2, d3]

/-- A record with price 0, used to exercise the zero-search branch. -/
def zeroTx : Transaction := ⟨9, "aa", "bb", 0, ⟨2022, 3, 5, 0⟩, "catC", false⟩

deriving instance DecidableEq for Except

/-! ## Helper lemmas -/

theorem hasSubstrC_nil (l : List Char) : hasSubstrC [] l = true := by
  cases l <;> simp [hasSubstrC, startsWithC, List.isEmpty]

theorem regexMatchI_empty (s : String) : regexMatchI "" s = true := by
  unfold regexMatchI toLowerList
  exact hasSubstrC_nil _

theorem parseFloatQ_empty : parseFloatQ "" = none := rfl

/-! ## Claim theorems -/

/-- C4: a well-formed year-month selector resolves to the half-open
window running from the first instant of that month to the first
instant of the following month, December rolling over to January of the
next year; in particular "2022-03" yields [2022-03-01, 2022-04-01) and
"2022-12" yields [2022-12-01, 2023-01-01). -/
theorem monthWindow_correct (s : String) (y m : Int)
    (h : jsParseDate (s ++ "-01") = JSDate.valid ⟨y, m, 1, 0⟩) :
    resolveWindow s = (JSDate.valid ⟨y, m, 1, 0⟩, JSDate.valid (firstOfNextMonth y m))
  ∧ resolveWindow "2022-03" = (JSDate.valid ⟨2022, 3, 1, 0⟩, JSDate.valid ⟨2022, 4, 1, 0⟩)
  ∧ resolveWindow "2022-12" = (JSDate.valid ⟨2022, 12, 1, 0⟩, JSDate.valid ⟨2023, 1, 1, 0⟩) := by
  refine ⟨?_, by decide, by decide⟩
  have hb : 1 ≤ m ∧ m ≤ 12 := by
    unfold jsParseDate at h
    split at h
    next y' m' d' =>
      split_ifs at h with hcond
      injection h with h'
      injection h' with e1 e2 e3 e4
      omega
    next => exact absurd h (by simp)
  simp only [resolveWindow]
  rw [h]
  simp only [jsSetMonthPlusOne, firstOfNextMonth]
  by_cases h12 : m = 12
  · subst h12; norm_num
  · rw [if_neg (show ¬ (m + 1 > 12) by omega), if_neg h12]

/-- Witness for C4 at the concrete selectors the spec names. -/
theorem monthWindow_correct_witness :
    resolveWindow "2022-03" = (JSDate.valid ⟨2022, 3, 1, 0⟩, JSDate.valid (firstOfNextMonth 2022 3))
  ∧ resolveWindow "2022-03" = (JSDate.valid ⟨2022, 3, 1, 0⟩, JSDate.valid ⟨2022, 4, 1, 0⟩)
  ∧ resolveWindow "2022-12" = (JSDate.valid ⟨2022, 12, 1, 0⟩, JSDate.valid ⟨2023, 1, 1, 0⟩) :=
  monthWindow_correct "2022-03" 2022 3 (by decide)

/-- C1 (amended): for every transaction with a non-negative price and
every search string that does not parse to the number 0, the code's
filter coincides with the spec's predicate — window containment AND
(empty search OR case-insensitive title/description match OR price
equal to the parsed search), the price branch never matching (and never
failing) when the search does not parse as a number.  A search parsing
to 0 is excluded: `parseFloat(search) || -1` collapses the falsy 0 to
the sentinel -1, so such a search cannot match a price-0 record via the
price branch. -/
theorem searchPredicate_amended (w : JSDate × JSDate) (search : String) (t : Transaction)
    (hp : 0 ≤ t.price) (h0 : parseFloatQ search ≠ some 0) :
    txMatches w search t = specPredicate w search t := by
  unfold txMatches specPredicate priceSearchValue
  cases hq : parseFloatQ search with
  | none =>
    have hm1 : (decide (t.price = -1)) = false := by
      simp only [decide_eq_false_iff_not]
      intro he
      rw [he] at hp
      norm_num at hp
    rw [hm1]
    by_cases hs : search = ""
    · subst hs
      simp [regexMatchI_empty]
    · simp [hs]
  | some q =>
    have hq0 : ¬ q = 0 := fun hh => h0 (by rw [hq, hh])
    have hs : search ≠ "" := by
      intro he
      rw [he, parseFloatQ_empty] at hq
      exact Option.noConfusion hq
    simp [hs, hq0]

/-- Witness for C1's amended predicate equivalence: the spec's own
example search "200" against the price-200 record. -/
theorem searchPredicate_amended_witness :
    txMatches (resolveWindow "2022-03") "200" d3
      = specPredicate (resolveWindow "2022-03") "200" d3 :=
  searchPredicate_amended (resolveWindow "2022-03") "200" d3 (by decide) (by decide)

/-- Counterexample to C1 as stated: searching "0" (which parses as the
number 0) against an in-window record of price 0 should match via the
price branch per the claim, but the code's `parseFloat(search) || -1`
turns 0 into the sentinel -1, so the code's filter rejects the record
while the spec predicate accepts it. -/
theorem searchPredicate_cx :
    specPredicate (resolveWindow "2022-03") "0" zeroTx = true
  ∧ txMatches (resolveWindow "2022-03") "0" zeroTx = false := by decide

/-- C6 (code bug): non-positive pagination parameters are NOT replaced
by the defaults — the destructuring defaults of line 51 apply only to
absent parameters, so `page = 0` reaches `.skip((0 - 1) * perPage)`,
a negative offset the store rejects, instead of behaving like the
default `page = 1` (which succeeds). -/
theorem pagination_nonpositive_bug :
    skipAmount 0 10 = -10
  ∧ listTransactions [] "2022-03" "" 0 10 = Except.error "skip must be non-negative"
  ∧ listTransactions [] "2022-03" "" 1 10 = Except.ok ⟨[], 0⟩ :=
  ⟨rfl, rfl, rfl⟩

theorem txMatches_empty (w : JSDate × JSDate) (t : Transaction) :
    txMatches w "" t = inWindowB w t.dateOfSale := by
  unfold txMatches
  simp [regexMatchI_empty]

theorem countP_and_split {α : Type} (l : List α) (f g : α → Bool) :
    l.countP (fun x => f x && g x) + l.countP (fun x => f x && !g x) = l.countP f := by
  induction l with
  | nil => simp
  | cons a l ih =>
    simp only [List.countP_cons]
    cases hf : f a <;> cases hg : g a <;> simp [hf, hg] <;> omega

theorem countP_filter_and {α : Type} (l : List α) (p q : α → Bool) :
    (l.filter q).countP p = l.countP (fun a => q a && p a) := by
  induction l with
  | nil => rfl
  | cons a l ih =>
    cases hq : q a <;> cases hp : p a <;>
      simp [List.filter_cons, hq, hp, List.countP_cons, ih]

theorem listTransactions_ok (store : List Transaction) (month search : String)
    (page perPage : Int) (hpg : 1 ≤ page) (hpp : 1 ≤ perPage) :
    listTransactions store month search page perPage
      = Except.ok ⟨((matchesOf store month search).drop ((page - 1) * perPage).toNat).take
                     perPage.toNat,
                   (matchesOf store month search).length⟩ := by
  unfold listTransactions mongoSkipLimit skipAmount
  have h1 : ¬ ((page - 1) * perPage < 0) := by
    have : (0 : Int) ≤ (page - 1) * perPage := mul_nonneg (by omega) (by omega)
    omega
  rw [if_neg h1]
  have h2 : ¬ (perPage = 0) := by omega
  rw [if_neg h2]
  have h3 : perPage.natAbs = perPage.toNat := by omega
  rw [h3]

/-- C7: the combined report's statistics are snapshot-consistent with
the unfiltered transactions list of the same month: sold plus not-sold
counts equal the total match count the List Transactions call reports
(the combined call invokes it with empty search and default
pagination). -/
theorem combined_consistency (store : List Transaction) (month : String) (p : CombinedPayload)
    (h : combinedData store month = Except.ok p) :
    p.statistics.totalSoldItems + p.statistics.totalNotSoldItems = p.transactions.total
  ∧ listTransactions store month "" 1 10 = Except.ok p.transactions := by
  have hlt := listTransactions_ok store month "" 1 10 (by norm_num) (by norm_num)
  unfold combinedData at h
  rw [hlt] at h
  have hp : p = ⟨⟨((matchesOf store month "").drop ((((1 : Int)) - 1) * 10).toNat).take
                    (10 : Int).toNat,
                  (matchesOf store month "").length⟩,
                 getStatistics store month, barChart store month, pieChart store month⟩ := by
    have h2 := h.symm
    injection h2 with h'
    try exact h'.symm
  subst hp
  refine ⟨?_, hlt⟩
  show (getStatistics store month).totalSoldItems + (getStatistics store month).totalNotSoldItems
      = (matchesOf store month "").length
  unfold getStatistics countDocs
  have hsplit := countP_and_split store
      (fun t => inWindowB (resolveWindow month) t.dateOfSale) (fun t => t.sold)
  have hfil : matchesOf store month ""
      = store.filter (fun t => inWindowB (resolveWindow month) t.dateOfSale) := by
    unfold matchesOf
    exact List.filter_congr (fun t _ => txMatches_empty (resolveWindow month) t)
  rw [hfil, ← List.countP_eq_length_filter]
  exact hsplit

/-- Witness for C7 on a concrete store and month. -/
theorem combined_consistency_witness :
    ((⟨⟨[], 0⟩, ⟨0, 0, 0⟩, barChart [] "2022-03", []⟩ : CombinedPayload).statistics.totalSoldItems
        + (⟨⟨[], 0⟩, ⟨0, 0, 0⟩, barChart [] "2022-03", []⟩ : CombinedPayload).statistics.totalNotSoldItems
      = (⟨⟨[], 0⟩, ⟨0, 0, 0⟩, barChart [] "2022-03", []⟩ : CombinedPayload).transactions.total)
  ∧ listTransactions [] "2022-03" "" 1 10
      = Except.ok (⟨⟨[], 0⟩, ⟨0, 0, 0⟩, barChart [] "2022-03", []⟩ : CombinedPayload).transactions :=
  combined_consistency [] "2022-03" _ (by rfl)

/-- C8: the combined call fails as a whole if any of the four
sub-results failed, and succeeds exactly when all four succeed, in
which case the payload is assembled from the four values with no
placeholders. -/
theorem combined_fail_fast :
    (∀ (t : Except String TxPage) (s : Except String Stats)
       (b p : Except String (List (String × Nat))),
        isOkE (combineResponses t s b p) = (isOkE t && isOkE s && isOkE b && isOkE p))
  ∧ (∀ (td : TxPage) (sd : Stats) (bd pd : List (String × Nat)),
      combineResponses (Except.ok td) (Except.ok sd) (Except.ok bd) (Except.ok pd)
        = Except.ok ⟨td, sd, bd, pd⟩) := by
  constructor
  · intro t s b p
    cases t <;> cases s <;> cases b <;> cases p <;> rfl
  · intro td sd bd pd
    rfl

/-- C9: the category distribution has exactly one entry per distinct
category occurring among in-window records, each entry's count being
the number of in-window records of that category (hence positive);
categories absent from the window yield no entry. -/
theorem pieChart_correct (store : List Transaction) (month : String) :
    ((pieChart store month).map Prod.fst).Nodup
  ∧ (∀ c : String, (∃ n, (c, n) ∈ pieChart store month) ↔
      c ∈ (store.filter (fun t => inWindowB (resolveWindow month) t.dateOfSale)).map
            (fun t => t.category))
  ∧ (∀ e ∈ pieChart store month,
      e.2 = countDocs store
              (fun t => inWindowB (resolveWindow month) t.dateOfSale && t.category == e.1)
        ∧ 0 < e.2) := by
  refine ⟨?_, ?_, ?_⟩
  · unfold pieChart
    simp only [List.map_map]
    have : (Prod.fst ∘ fun c => (c,
        (store.filter (fun t => inWindowB (resolveWindow month) t.dateOfSale)).countP
          (fun t => t.category == c))) = id := rfl
    rw [this, List.map_id]
    exact List.nodup_dedup _
  · intro c
    unfold pieChart
    constructor
    · rintro ⟨n, hn⟩
      rw [List.mem_map] at hn
      obtain ⟨a, ha, he⟩ := hn
      have : a = c := congrArg Prod.fst he
      subst this
      exact (List.mem_dedup).mp ha
    · intro hc
      refine ⟨(store.filter (fun t => inWindowB (resolveWindow month) t.dateOfSale)).countP
          (fun t => t.category == c), ?_⟩
      rw [List.mem_map]
      exact ⟨c, (List.mem_dedup).mpr hc, rfl⟩
  · intro e he
    unfold pieChart at he
    rw [List.mem_map] at he
    obtain ⟨a, ha, he'⟩ := he
    subst he'
    constructor
    · show (store.filter (fun t => inWindowB (resolveWindow month) t.dateOfSale)).countP
          (fun t => t.category == a) = countDocs store _
      unfold countDocs
      exact countP_filter_and store (fun t => t.category == a)
        (fun t => inWindowB (resolveWindow month) t.dateOfSale)
    · rw [List.mem_dedup, List.mem_map] at ha
      obtain ⟨t, ht, hc⟩ := ha
      refine (List.countP_pos_iff).mpr ⟨t, ht, ?_⟩
      simp [hc]

/-- C10: when the month selector does not parse, every query operation
runs against the Invalid-Date window, which matches no record, and
returns an empty/zero-valued successful result rather than failing. -/
theorem invalid_month_empty (store : List Transaction) (month : String)
    (h : jsParseDate (month ++ "-01") = JSDate.invalid) :
    listTransactions store month "" 1 10 = Except.ok ⟨[], 0⟩
  ∧ getStatistics store month = ⟨0, 0, 0⟩
  ∧ (barChart store month).map Prod.snd = [0, 0, 0, 0, 0, 0, 0, 0, 0, 0]
  ∧ pieChart store month = [] := by
  have hw : resolveWindow month = (JSDate.invalid, JSDate.invalid) := by
    simp only [resolveWindow]
    rw [h]
    rfl
  have hfalse : ∀ t : Transaction,
      inWindowB (JSDate.invalid, JSDate.invalid) t.dateOfSale = false := fun t => rfl
  have hmat : matchesOf store month "" = [] := by
    unfold matchesOf txMatches
    rw [hw]
    simp [hfalse]
  refine ⟨?_, ?_, ?_, ?_⟩
  · rw [listTransactions_ok store month "" 1 10 (by norm_num) (by norm_num), hmat]
    rfl
  · unfold getStatistics aggSumSold countDocs
    rw [hw]
    simp [hfalse, jsOr0]
  · unfold barChart countDocs
    rw [hw]
    simp [priceRanges, hfalse]
  · unfold pieChart
    rw [hw]
    simp [hfalse]

/-- Witness for C10 at a concrete unparsable selector. -/
theorem invalid_month_empty_witness :
    listTransactions demoStore "hello" "" 1 10 = Except.ok ⟨[], 0⟩
  ∧ getStatistics demoStore "hello" = ⟨0, 0, 0⟩
  ∧ (barChart demoStore "hello").map Prod.snd = [0, 0, 0, 0, 0, 0, 0, 0, 0, 0]
  ∧ pieChart demoStore "hello" = [] :=
  invalid_month_empty demoStore "hello" (by decide)

theorem aggSum_eq (store : List Transaction) (w : JSDate × JSDate) :
    jsOr0 (aggSumSold store w)
      = ((store.filter (fun t => inWindowB w t.dateOfSale && t.sold)).map
          (fun t => t.price)).sum := by
  unfold aggSumSold jsOr0
  cases hl : store.filter (fun t => inWindowB w t.dateOfSale && t.sold) with
  | nil => simp
  | cons a l =>
    simp only [List.isEmpty_cons, Bool.false_eq_true, if_false]
    split_ifs with h0
    · exact h0.symm
    · rfl

theorem scanStats_spec (w : JSDate × JSDate) (store : List Transaction) :
    scanStats w store
      = ⟨((store.filter (fun t => inWindowB w t.dateOfSale && t.sold)).map
            (fun t => t.price)).sum,
         store.countP (fun t => inWindowB w t.dateOfSale && t.sold),
         store.countP (fun t => inWindowB w t.dateOfSale && !t.sold)⟩ := by
  induction store with
  | nil => rfl
  | cons t l ih =>
    unfold scanStats
    rw [ih]
    by_cases hw : inWindowB w t.dateOfSale <;> by_cases hs : t.sold <;>
      simp [List.filter_cons, List.countP_cons, hw, hs, add_comm]

/-- C5: the statistics operation returns exactly the sum of prices over
in-window sold records (0 — never null — when there are none), the
count of in-window sold records, and the count of in-window unsold
records, identical to one linear scan computing all three at once. -/
theorem statistics_correct (store : List Transaction) (month : String) :
    (getStatistics store month).totalSaleAmount
      = ((store.filter (fun t => inWindowB (resolveWindow month) t.dateOfSale && t.sold)).map
          (fun t => t.price)).sum
  ∧ (getStatistics store month).totalSoldItems
      = countDocs store (fun t => inWindowB (resolveWindow month) t.dateOfSale && t.sold)
  ∧ (getStatistics store month).totalNotSoldItems
      = countDocs store (fun t => inWindowB (resolveWindow month) t.dateOfSale && !t.sold)
  ∧ getStatistics store month = scanStats (resolveWindow month) store := by
  refine ⟨aggSum_eq store _, rfl, rfl, ?_⟩
  rw [scanStats_spec]
  unfold getStatistics countDocs
  simp only [Stats.mk.injEq, and_true, true_and]
  exact aggSum_eq store _

theorem le_ceil_mul (a pp : Nat) (hpp : 1 ≤ pp) : a ≤ ceilDiv a pp * pp := by
  unfold ceilDiv
  have h := Nat.div_add_mod (a + pp - 1) pp
  have h2 : (a + pp - 1) % pp < pp := Nat.mod_lt _ (by omega)
  rw [Nat.mul_comm]
  generalize hX : pp * ((a + pp - 1) / pp) = X at h ⊢
  generalize hR : (a + pp - 1) % pp = r at h h2
  omega

theorem join_pages_aux (pp : Nat) (_hpp : 1 ≤ pp) :
    ∀ (n : Nat) (l : List Transaction), l.length ≤ n * pp →
      ((List.range n).map (fun i => (l.drop (i * pp)).take pp)).flatten = l := by
  intro n
  induction n with
  | zero =>
    intro l hl
    simp only [Nat.zero_mul, Nat.le_zero] at hl
    have hnil : l = [] := List.eq_nil_of_length_eq_zero hl
    subst hnil
    rfl
  | succ n ih =>
    intro l hl
    rw [List.range_succ_eq_map, List.map_cons, List.flatten_cons, List.map_map]
    have hcomp : ((fun i => (l.drop (i * pp)).take pp) ∘ Nat.succ)
        = fun i => ((l.drop pp).drop (i * pp)).take pp := by
      funext i
      simp only [Function.comp_apply]
      rw [Nat.succ_mul, Nat.add_comm (i * pp) pp, ← List.drop_drop]
    rw [hcomp, Nat.zero_mul, List.drop_zero]
    rw [ih (l.drop pp) (by rw [List.length_drop]; rw [Nat.succ_mul] at hl; omega)]
    exact List.take_append_drop pp l

/-- C3: for every filter and every `page ≥ 1`, `perPage ≥ 1`, the
returned total is the full match count — independent of page and
perPage — and the returned page is the slice
`[(page-1)*perPage, (page-1)*perPage + perPage)` of the matches in the
store's stable order, so concatenating the `⌈total/perPage⌉` pages
reconstructs the full match list with no duplicates and no
omissions. -/
theorem transactions_pagination (store : List Transaction) (month search : String)
    (page perPage : Int) (hpg : 1 ≤ page) (hpp : 1 ≤ perPage) :
    listTransactions store month search page perPage
      = Except.ok ⟨((matchesOf store month search).drop ((page - 1) * perPage).toNat).take
                     perPage.toNat,
                   (matchesOf store month search).length⟩
  ∧ ((List.range (ceilDiv (matchesOf store month search).length perPage.toNat)).map
        (fun (i : Nat) => txsOf (listTransactions store month search ((i : Int) + 1) perPage))).flatten
      = matchesOf store month search := by
  refine ⟨listTransactions_ok store month search page perPage hpg hpp, ?_⟩
  have hpp1 : 1 ≤ perPage.toNat := by omega
  have hmap : ∀ i ∈ List.range (ceilDiv (matchesOf store month search).length perPage.toNat),
      txsOf (listTransactions store month search ((i : Int) + 1) perPage)
        = ((matchesOf store month search).drop (i * perPage.toNat)).take perPage.toNat := by
    intro i _
    rw [listTransactions_ok store month search ((i : Int) + 1) perPage (by omega) hpp]
    unfold txsOf
    have e1 : ((i : Int) + 1 - 1) * perPage = (i : Int) * perPage := by ring
    rw [e1]
    have e2 : ((i : Int) * perPage).toNat = i * perPage.toNat := by
      have e3 : ((i * perPage.toNat : Nat) : Int) = (i : Int) * perPage := by
        push_cast
        rw [Int.toNat_of_nonneg (by omega : (0 : Int) ≤ perPage)]
      rw [← e3, Int.toNat_natCast]
    rw [e2]
  rw [List.map_congr_left hmap]
  exact join_pages_aux perPage.toNat hpp1 _ _ (le_ceil_mul _ _ hpp1)

/-- Witness for C3 on a concrete store: three matches paged two at a
time. -/
theorem transactions_pagination_witness :
    (listTransactions demoStore "2022-03" "" 1 2
      = Except.ok ⟨((matchesOf demoStore "2022-03" "").drop (((1 : Int) - 1) * 2).toNat).take
                     (2 : Int).toNat,
                   (matchesOf demoStore "2022-03" "").length⟩)
  ∧ ((List.range (ceilDiv (matchesOf demoStore "2022-03" "").length (2 : Int).toNat)).map
        (fun (i : Nat) => txsOf (listTransactions demoStore "2022-03" "" ((i : Int) + 1) 2))).flatten
      = matchesOf demoStore "2022-03" "" :=
  transactions_pagination demoStore "2022-03" "" 1 2 (by norm_num) (by norm_num)

set_option maxHeartbeats 3200000 in
/-- Every non-negative price lies in exactly one histogram bucket or
exactly one boundary gap: bucket membership count plus gap indicator
is one. -/
theorem bucket_gap_partition (p : ℚ) (hp : 0 ≤ p) :
    priceRanges.countP (fun r => priceIn r p) + (if inGap p then 1 else 0) = 1 := by
  have le0 : ((0 : ℚ) ≤ p) ↔ ((0 : Int) ≤ ⌊p⌋) := by
    rw [Int.le_floor]; norm_num
  have le100 : ((100 : ℚ) ≤ p) ↔ ((100 : Int) ≤ ⌊p⌋) := by
    rw [Int.le_floor]; norm_num
  have le101 : ((101 : ℚ) ≤ p) ↔ ((101 : Int) ≤ ⌊p⌋) := by
    rw [Int.le_floor]; norm_num
  have le200 : ((200 : ℚ) ≤ p) ↔ ((200 : Int) ≤ ⌊p⌋) := by
    rw [Int.le_floor]; norm_num
  have le201 : ((201 : ℚ) ≤ p) ↔ ((201 : Int) ≤ ⌊p⌋) := by
    rw [Int.le_floor]; norm_num
  have le300 : ((300 : ℚ) ≤ p) ↔ ((300 : Int) ≤ ⌊p⌋) := by
    rw [Int.le_floor]; norm_num
  have le301 : ((301 : ℚ) ≤ p) ↔ ((301 : Int) ≤ ⌊p⌋) := by
    rw [Int.le_floor]; norm_num
  have le400 : ((400 : ℚ) ≤ p) ↔ ((400 : Int) ≤ ⌊p⌋) := by
    rw [Int.le_floor]; norm_num
  have le401 : ((401 : ℚ) ≤ p) ↔ ((401 : Int) ≤ ⌊p⌋) := by
    rw [Int.le_floor]; norm_num
  have le500 : ((500 : ℚ) ≤ p) ↔ ((500 : Int) ≤ ⌊p⌋) := by
    rw [Int.le_floor]; norm_num
  have le501 : ((501 : ℚ) ≤ p) ↔ ((501 : Int) ≤ ⌊p⌋) := by
    rw [Int.le_floor]; norm_num
  have le600 : ((600 : ℚ) ≤ p) ↔ ((600 : Int) ≤ ⌊p⌋) := by
    rw [Int.le_floor]; norm_num
  have le601 : ((601 : ℚ) ≤ p) ↔ ((601 : Int) ≤ ⌊p⌋) := by
    rw [Int.le_floor]; norm_num
  have le700 : ((700 : ℚ) ≤ p) ↔ ((700 : Int) ≤ ⌊p⌋) := by
    rw [Int.le_floor]; norm_num
  have le701 : ((701 : ℚ) ≤ p) ↔ ((701 : Int) ≤ ⌊p⌋) := by
    rw [Int.le_floor]; norm_num
  have le800 : ((800 : ℚ) ≤ p) ↔ ((800 : Int) ≤ ⌊p⌋) := by
    rw [Int.le_floor]; norm_num
  have le801 : ((801 : ℚ) ≤ p) ↔ ((801 : Int) ≤ ⌊p⌋) := by
    rw [Int.le_floor]; norm_num
  have le900 : ((900 : ℚ) ≤ p) ↔ ((900 : Int) ≤ ⌊p⌋) := by
    rw [Int.le_floor]; norm_num
  have le901 : ((901 : ℚ) ≤ p) ↔ ((901 : Int) ≤ ⌊p⌋) := by
    rw [Int.le_floor]; norm_num
  have lt100 : (p < (100 : ℚ)) ↔ (⌊p⌋ < (100 : Int)) := by
    rw [Int.floor_lt]; norm_num
  have lt101 : (p < (101 : ℚ)) ↔ (⌊p⌋ < (101 : Int)) := by
    rw [Int.floor_lt]; norm_num
  have lt200 : (p < (200 : ℚ)) ↔ (⌊p⌋ < (200 : Int)) := by
    rw [Int.floor_lt]; norm_num
  have lt201 : (p < (201 : ℚ)) ↔ (⌊p⌋ < (201 : Int)) := by
    rw [Int.floor_lt]; norm_num
  have lt300 : (p < (300 : ℚ)) ↔ (⌊p⌋ < (300 : Int)) := by
    rw [Int.floor_lt]; norm_num
  have lt301 : (p < (301 : ℚ)) ↔ (⌊p⌋ < (301 : Int)) := by
    rw [Int.floor_lt]; norm_num
  have lt400 : (p < (400 : ℚ)) ↔ (⌊p⌋ < (400 : Int)) := by
    rw [Int.floor_lt]; norm_num
  have lt401 : (p < (401 : ℚ)) ↔ (⌊p⌋ < (401 : Int)) := by
    rw [Int.floor_lt]; norm_num
  have lt500 : (p < (500 : ℚ)) ↔ (⌊p⌋ < (500 : Int)) := by
    rw [Int.floor_lt]; norm_num
  have lt501 : (p < (501 : ℚ)) ↔ (⌊p⌋ < (501 : Int)) := by
    rw [Int.floor_lt]; norm_num
  have lt600 : (p < (600 : ℚ)) ↔ (⌊p⌋ < (600 : Int)) := by
    rw [Int.floor_lt]; norm_num
  have lt601 : (p < (601 : ℚ)) ↔ (⌊p⌋ < (601 : Int)) := by
    rw [Int.floor_lt]; norm_num
  have lt700 : (p < (700 : ℚ)) ↔ (⌊p⌋ < (700 : Int)) := by
    rw [Int.floor_lt]; norm_num
  have lt701 : (p < (701 : ℚ)) ↔ (⌊p⌋ < (701 : Int)) := by
    rw [Int.floor_lt]; norm_num
  have lt800 : (p < (800 : ℚ)) ↔ (⌊p⌋ < (800 : Int)) := by
    rw [Int.floor_lt]; norm_num
  have lt801 : (p < (801 : ℚ)) ↔ (⌊p⌋ < (801 : Int)) := by
    rw [Int.floor_lt]; norm_num
  have lt900 : (p < (900 : ℚ)) ↔ (⌊p⌋ < (900 : Int)) := by
    rw [Int.floor_lt]; norm_num
  have lt901 : (p < (901 : ℚ)) ↔ (⌊p⌋ < (901 : Int)) := by
    rw [Int.floor_lt]; norm_num
  have hfl : (0 : Int) ≤ ⌊p⌋ := le0.mp hp
  simp only [priceRanges, range0, range1, range2, range3, range4, range5, range6, range7,
             range8, range9, priceIn, inGap, gapBounds, List.countP_cons, List.countP_nil,
             List.any_cons, List.any_nil, Bool.or_false, Bool.and_true, Bool.and_eq_true,
             Bool.or_eq_true, decide_eq_true_eq]
  simp only [le0, le100, le101, le200, le201, le300, le301, le400, le401, le500, le501, le600, le601, le700, le701, le800, le801, le900, le901, lt100, lt101, lt200, lt201, lt300, lt301, lt400, lt401, lt500, lt501, lt600, lt601, lt700, lt701, lt800, lt801, lt900, lt901]
  split_ifs <;> omega
theorem bucket_counts_sum (w : JSDate × JSDate) :
    ∀ (store : List Transaction), (∀ t ∈ store, 0 ≤ t.price) →
      (priceRanges.map (fun r =>
          store.countP (fun t => inWindowB w t.dateOfSale && priceIn r t.price))).sum
        + store.countP (fun t => inWindowB w t.dateOfSale && inGap t.price)
      = store.countP (fun t => inWindowB w t.dateOfSale) := by
  intro store
  induction store with
  | nil => intro _; rfl
  | cons t l ih =>
    intro h
    have ht : 0 ≤ t.price := h t (List.mem_cons_self t l)
    have ihh := ih (fun x hx => h x (List.mem_cons_of_mem t hx))
    have hpart := bucket_gap_partition t.price ht
    simp only [priceRanges, List.map_cons, List.map_nil, List.sum_cons, List.sum_nil,
               List.countP_cons, List.countP_nil] at ihh hpart ⊢
    by_cases hw : inWindowB w t.dateOfSale
    · simp only [hw, Bool.true_and, eq_self_iff_true, if_true]
      omega
    · rw [Bool.not_eq_true] at hw
      simp only [hw, Bool.false_and, Bool.false_eq_true, if_false]
      omega

/-- C2 (amended): for every month and store in which all prices are
non-negative (the data model's invariant), the ten bucket counts plus
the count of in-window records whose price falls in a boundary gap —
any of the intervals [100,101), [200,201), …, [900,901) skipped
between consecutive buckets, not only the price exactly 100 — sum to
the total in-window record count, and every record's price falls in
exactly one bucket or exactly one gap. -/
theorem barChart_completeness (store : List Transaction) (month : String)
    (h : ∀ t ∈ store, 0 ≤ t.price) :
    ((barChart store month).map Prod.snd).sum
        + countDocs store (fun t => inWindowB (resolveWindow month) t.dateOfSale && inGap t.price)
      = countDocs store (fun t => inWindowB (resolveWindow month) t.dateOfSale)
  ∧ (∀ t ∈ store,
      priceRanges.countP (fun r => priceIn r t.price) + (if inGap t.price then 1 else 0) = 1) := by
  constructor
  · have hbar : (barChart store month).map Prod.snd
        = priceRanges.map (fun r =>
            store.countP (fun t => inWindowB (resolveWindow month) t.dateOfSale
              && priceIn r t.price)) := by
      simp only [barChart, countDocs, List.map_map]
      rfl
    rw [hbar]
    exact bucket_counts_sum (resolveWindow month) store h
  · intro t ht
    exact bucket_gap_partition t.price (h t ht)

/-- Witness for C2's amended histogram completeness on a concrete
store containing a boundary-gap price (200). -/
theorem barChart_completeness_witness :
    (((barChart demoStore "2022-03").map Prod.snd).sum
        + countDocs demoStore (fun t => inWindowB (resolveWindow "2022-03") t.dateOfSale
            && inGap t.price)
      = countDocs demoStore (fun t => inWindowB (resolveWindow "2022-03") t.dateOfSale))
  ∧ (∀ t ∈ demoStore,
      priceRanges.countP (fun r => priceIn r t.price) + (if inGap t.price then 1 else 0) = 1) :=
  barChart_completeness demoStore "2022-03" (by decide)

/-- Counterexample to C2 as stated: a single in-window record with
price exactly 200 falls into no bucket (the table jumps from [101,200)
to [201,300)) and is not "price exactly 100", so the bucket counts plus
the price-100 count miss it. -/
theorem barChart_gap_cx :
    ((barChart [d3] "2022-03").map Prod.snd).sum
        + countDocs [d3] (fun t => inWindowB (resolveWindow "2022-03") t.dateOfSale
            && decide (t.price = 100))
      ≠ countDocs [d3] (fun t => inWindowB (resolveWindow "2022-03") t.dateOfSale) := by
  decide
